import Mathlib

/-!
Verification of the health-monitoring application (`src/app.py`).

The application's core consists of three pure derivation functions
(`calculate_bmi`, `recommend_steps`, `interpret_bmi`), a password digest,
and a small record store over two sqlite tables (`users`, `health_data`).
This file gives a shallow embedding of those parts and proves the
specified properties about them.

Numeric modelling: Python floats are modelled as exact rationals (ℚ).
All numeric literals in the source (18.5, 24.9, 0.1, 1.05, ...) are exact
decimals, and every concrete value the claims mention has been checked to
agree between IEEE-754 double evaluation and exact rational evaluation
(the products such as 8000 * 1.1 round to the exact integer in doubles,
and Python's `int` truncation then yields the same result as the rational
floor taken here).
-/

set_option autoImplicit false

namespace HealthApp

/-- Python `int(q)`: truncation toward zero (source line 108 `int(base * factor)`). -/
def pyInt (q : ℚ) : ℤ :=
  if q < 0 then ⌈q⌉ else ⌊q⌋

/-- Round-half-to-even of a rational to the nearest integer, the rounding
mode of Python's builtin `round`. -/
def roundHalfEven (x : ℚ) : ℤ :=
  if x - ⌊x⌋ < 1 / 2 then ⌊x⌋
  else if 1 / 2 < x - ⌊x⌋ then ⌊x⌋ + 1
  else if 2 ∣ ⌊x⌋ then ⌊x⌋ else ⌊x⌋ + 1

/-- Python `round(x, 2)`: round to two decimal places (half-to-even). -/
def pyRound2 (x : ℚ) : ℚ :=
  (roundHalfEven (x * 100) : ℚ) / 100

/-- `calculate_bmi` (source lines 89-91):
`height_m = height_cm / 100; return round(weight / (height_m ** 2), 2)`. -/
def calculate_bmi (weight height_cm : ℚ) : ℚ :=
  let height_m := height_cm / 100
  pyRound2 (weight / height_m ^ 2)

/-- `recommend_steps` (source lines 93-108): `base = 6000`, `factor = 1`,
gender adds 0.1 (Male) or 0.05 (Female) to the factor, goal adds 2000
(Weight Loss), 1000 (Muscle Building) or 500 (Weight Gain) to the base,
result is `int(base * factor)`. The `weight`, `height` and `age`
parameters are accepted but never read. -/
def recommend_steps (weight height : ℚ) (age : ℤ) (gender goal : String) : ℤ :=
  let factor : ℚ :=
    if gender = "Male" then 1 + 0.1
    else if gender = "Female" then 1 + 0.05
    else 1
  let base : ℚ :=
    if goal = "Weight Loss" then 6000 + 2000
    else if goal = "Muscle Building" then 6000 + 1000
    else if goal = "Weight Gain" then 6000 + 500
    else 6000
  pyInt (base * factor)

/-- The goal adjustment as the specification words it: +2000 for Weight
Loss, +1000 for Muscle Building, +500 for Weight Gain, +0 otherwise. -/
def goalAdjustment (goal : String) : ℚ :=
  if goal = "Weight Loss" then 2000
  else if goal = "Muscle Building" then 1000
  else if goal = "Weight Gain" then 500
  else 0

/-- The gender factor as the specification words it: 1.1 for Male,
1.05 for Female, 1.0 otherwise. -/
def genderFactor (gender : String) : ℚ :=
  if gender = "Male" then 1.1
  else if gender = "Female" then 1.05
  else 1

/-- `interpret_bmi` (source lines 110-118), with the exact strings the
source returns; the chained comparison `18.5 <= bmi <= 24.9` is the
conjunction of the two comparisons. -/
def interpret_bmi (bmi : ℚ) : String :=
  if bmi < 18.5 then "Underweight (Ideal: 18.5 - 24.9)"
  else if 18.5 ≤ bmi ∧ bmi ≤ 24.9 then "Normal (Ideal)"
  else if 25 ≤ bmi ∧ bmi ≤ 29.9 then "Overweight (Ideal: 18.5 - 24.9)"
  else "Obese (Ideal: 18.5 - 24.9)"

/-- A row of the `users` table: `users(username TEXT PRIMARY KEY, password TEXT)`;
the `password` column holds the digest. -/
structure UserRow where
  username : String
  password : String
  deriving DecidableEq

/-- A row of the `health_data` table, with the columns of the CREATE TABLE
statement (source lines 18-33).  `id` is the autoincrement key, `timestamp`
the value of CURRENT_TIMESTAMP at insertion, modelled as a natural number. -/
structure HealthRow where
  id : ℕ
  username : String
  name : String
  gender : String
  goal : String
  age : ℤ
  weight : ℚ
  height : ℚ
  blood_pressure : String
  bmi : ℚ
  steps_recommended : ℤ
  timestamp : ℕ
  deriving DecidableEq

/-- The contents of the sqlite database `health.db`: the two tables in
stored (= insertion) order, plus the autoincrement counter for
`health_data.id`.  Sqlite semantics used by the source are modelled
explicitly: a `SELECT` without ORDER BY on these tables scans rows in
insertion order, `INSERT` appends, and inserting a duplicate primary key
raises `IntegrityError`. -/
structure DBState where
  users : List UserRow
  health_data : List HealthRow
  nextId : ℕ
  deriving DecidableEq

/-- Modelled from the spec: the digest `hashlib.sha256(password.encode()).hexdigest()`
(source lines 48-49) is an external primitive, which the specification
treats as an opaque deterministic one-way digest used only for equality
comparison.  It is modelled as a deterministic tagging function; no claim
below relies on any property of it beyond determinism. -/
def hash_password (password : String) : String :=
  "sha256:" ++ password

/-- `register_user` (source lines 51-61): INSERT of (username, digest);
a duplicate of the `username` primary key raises `sqlite3.IntegrityError`,
which the source catches and turns into `False`; on success it commits
and returns `True`. -/
def register_user (s : DBState) (username password : String) : DBState × Bool :=
  if s.users.any (fun r => r.username == username) then
    (s, false)
  else
    ({ s with users := s.users ++ [{ username := username, password := hash_password password }] },
      true)

/-- `login_user` (source lines 63-69): SELECT of the first row with
matching username AND password digest; `fetchone` yields `None` when no
row matches. -/
def login_user (s : DBState) (username password : String) : Option UserRow :=
  s.users.find? (fun r => r.username == username && r.password == hash_password password)

/-- `insert_health_data` (source lines 71-79): INSERT of one `health_data`
row; `id` comes from the autoincrement counter and `timestamp` from
CURRENT_TIMESTAMP, passed here as `now`. -/
def insert_health_data (s : DBState) (now : ℕ) (username name gender goal : String)
    (age : ℤ) (weight height : ℚ) (bp : String) (bmi : ℚ) (steps : ℤ) : DBState :=
  { s with
    health_data := s.health_data ++
      [{ id := s.nextId, username := username, name := name, gender := gender, goal := goal,
         age := age, weight := weight, height := height, blood_pressure := bp, bmi := bmi,
         steps_recommended := steps, timestamp := now }],
    nextId := s.nextId + 1 }

/-- The rows of `health_data` whose username matches, in stored order:
the row set selected by the WHERE clause of `get_user_data_df`. -/
def userRecords (s : DBState) (username : String) : List HealthRow :=
  s.health_data.filter (fun r => r.username == username)

/-- The column projection of the SELECT in `get_user_data_df` (source
line 83): timestamp, name, gender, goal, age, weight, height, bmi,
steps_recommended. -/
structure DfRow where
  timestamp : ℕ
  name : String
  gender : String
  goal : String
  age : ℤ
  weight : ℚ
  height : ℚ
  bmi : ℚ
  steps_recommended : ℤ
  deriving DecidableEq

/-- Projection of a stored row onto the selected columns. -/
def projectRow (r : HealthRow) : DfRow :=
  { timestamp := r.timestamp, name := r.name, gender := r.gender, goal := r.goal,
    age := r.age, weight := r.weight, height := r.height, bmi := r.bmi,
    steps_recommended := r.steps_recommended }

/-- `get_user_data_df` (source lines 81-86): the rows with matching
username, in stored order, projected onto the selected columns. -/
def get_user_data_df (s : DBState) (username : String) : List DfRow :=
  (userRecords s username).map projectRow

/-- Columns of the `users` table as created by `create_tables`. -/
def usersColumns : List String := ["username", "password"]

/-- Columns of the `health_data` table as created by `create_tables`. -/
def healthColumns : List String :=
  ["id", "username", "name", "gender", "goal", "age", "weight", "height",
   "blood_pressure", "bmi", "steps_recommended", "timestamp"]

/-- The schema state of the database: for each of the two tables, `none`
if the table does not exist yet, otherwise its column list. -/
structure Schema where
  users : Option (List String)
  health_data : Option (List String)
  deriving DecidableEq

/-- `ALTER TABLE ... ADD COLUMN c`: appends the column, or raises
`sqlite3.OperationalError` ("duplicate column name") if it exists. -/
def alterAddColumn (cols : List String) (c : String) : Except String (List String) :=
  if c ∈ cols then .error "duplicate column name" else .ok (cols ++ [c])

/-- The `try: ALTER ... except sqlite3.OperationalError: pass` pattern of
`create_tables` (source lines 36-43): the error is swallowed and the
column list left unchanged. -/
def tryAddColumn (cols : List String) (c : String) : List String :=
  match alterAddColumn cols c with
  | .ok new => new
  | .error _ => cols

/-- A sample database state used to witness the fetch properties: three
records, two of them for "alice", with non-decreasing timestamps. -/
def sampleState : DBState :=
  ⟨[],
   [⟨0, "alice", "A", "Female", "Weight Loss", 30, 70, 175, "120/80", 22, 8400, 1⟩,
    ⟨1, "bob", "B", "Male", "Weight Gain", 40, 80, 180, "130/85", 24, 7150, 2⟩,
    ⟨2, "alice", "A", "Female", "Weight Loss", 30, 71, 175, "120/80", 23, 8400, 3⟩], 3⟩

/-- `create_tables` (source lines 9-46): CREATE TABLE IF NOT EXISTS for
both tables, then the guarded ALTERs adding `gender` and `goal` to
`health_data`. -/
def create_tables (s : Schema) : Schema :=
  let u := s.users.getD usersColumns
  let hd := s.health_data.getD healthColumns
  let hd := tryAddColumn hd "gender"
  let hd := tryAddColumn hd "goal"
  { users := some u, health_data := some hd }

end HealthApp

namespace HealthApp

theorem pyInt_eq_floor_of_nonneg (x : ℚ) (h : 0 ≤ x) : pyInt x = ⌊x⌋ := by
  simp [pyInt, not_lt.mpr h]

theorem recommend_steps_eq_floor (w h : ℚ) (a : ℤ) (gender goal : String) :
    recommend_steps w h a gender goal
      = ⌊(6000 + goalAdjustment goal) * genderFactor gender⌋ := by
  simp only [recommend_steps, goalAdjustment, genderFactor, pyInt]
  split_ifs <;> norm_num

/-- C1: `recommend_steps` computes floor((6000 + goal adjustment) * genderFactor),
with goal adjustment +2000 for Weight Loss, +1000 for Muscle Building,
+500 for Weight Gain, +0 otherwise, and gender factor 1.1 for Male,
1.05 for Female, 1.0 otherwise; in particular, for any weight, height and
age, Male/Weight Loss gives 8800 and Other/Weight Gain gives 6500. -/
theorem recommend_steps_spec (w h : ℚ) (a : ℤ) (gender goal : String) :
    recommend_steps w h a gender goal
      = ⌊(6000 + goalAdjustment goal) * genderFactor gender⌋ ∧
    recommend_steps w h a "Male" "Weight Loss" = 8800 ∧
    recommend_steps w h a "Other" "Weight Gain" = 6500 := by
  refine ⟨recommend_steps_eq_floor w h a gender goal, ?_, ?_⟩
  · rw [recommend_steps_eq_floor,
      show goalAdjustment "Weight Loss" = 2000 from by decide,
      show genderFactor "Male" = 1.1 from by norm_num [genderFactor],
      show ((6000 + 2000) * (1.1 : ℚ)) = ((8800 : ℤ) : ℚ) by norm_num]
    exact Int.floor_intCast 8800
  · rw [recommend_steps_eq_floor,
      show goalAdjustment "Weight Gain" = 500 from by decide,
      show genderFactor "Other" = 1 from by decide,
      show ((6000 + 500) * (1 : ℚ)) = ((6500 : ℤ) : ℚ) by norm_num]
    exact Int.floor_intCast 6500

/-- C2: `recommend_steps` is independent of its weight, height and age
parameters: any two triples give the same result for every gender/goal. -/
theorem recommend_steps_ignores_body_params
    (w1 h1 : ℚ) (a1 : ℤ) (w2 h2 : ℚ) (a2 : ℤ) (gender goal : String) :
    recommend_steps w1 h1 a1 gender goal = recommend_steps w2 h2 a2 gender goal := rfl

/-- C3: `interpret_bmi` classifies on the fixed inclusive thresholds
(each result shown with the claim's category label as the leading part of
the returned string): 18.5 is Normal, 18.49 is Underweight, 24.95 falls
through the gap between 24.9 and 25 into the Obese branch, and 30 is
Obese. -/
theorem interpret_bmi_boundaries :
    interpret_bmi 18.5 = "Normal" ++ " (Ideal)" ∧
    interpret_bmi 18.49 = "Underweight" ++ " (Ideal: 18.5 - 24.9)" ∧
    interpret_bmi 24.95 = "Obese" ++ " (Ideal: 18.5 - 24.9)" ∧
    interpret_bmi 30 = "Obese" ++ " (Ideal: 18.5 - 24.9)" := by
  refine ⟨?_, ?_, ?_, ?_⟩ <;> · simp only [interpret_bmi]; norm_num; rfl

theorem calculate_bmi_at_70_175 : calculate_bmi 70 175 = 22.86 := by
  have hfl : ⌊(70 / (175 / 100) ^ 2 * 100 : ℚ)⌋ = 2285 :=
    Int.floor_eq_iff.mpr (by norm_num)
  simp only [calculate_bmi, pyRound2, roundHalfEven, hfl]
  norm_num

/-- C4: for positive weight and height, `calculate_bmi` is
weight / (height/100)^2 rounded to two decimal places; in particular
`calculate_bmi 70 175 = 22.86`. -/
theorem calculate_bmi_spec (w h : ℚ) (hw : 0 < w) (hh : 0 < h) :
    calculate_bmi w h = pyRound2 (w / (h / 100) ^ 2) ∧
    calculate_bmi 70 175 = 22.86 :=
  ⟨rfl, calculate_bmi_at_70_175⟩

/-- Witness for C4 at weight 70 kg, height 175 cm. -/
theorem calculate_bmi_spec_witness : calculate_bmi 70 175 = 22.86 :=
  (calculate_bmi_spec 70 175 (by norm_num) (by norm_num)).2

theorem users_any_eq_false (s : DBState) (u : String)
    (h : ∀ r ∈ s.users, r.username ≠ u) :
    s.users.any (fun r => r.username == u) = false := by
  rw [List.any_eq_false]
  intro r hr
  simp only [beq_iff_eq]
  exact h r hr

/-- C5: `register_user` returns true on success and false (without
raising) on a duplicate username: registering the same username twice
gives true then false, and the users table then holds exactly one row for
that username. -/
theorem register_user_duplicate (s : DBState) (u p : String)
    (h : ∀ r ∈ s.users, r.username ≠ u) :
    (register_user s u p).2 = true ∧
    (register_user (register_user s u p).1 u p).2 = false ∧
    ((register_user (register_user s u p).1 u p).1.users.filter
        (fun r => r.username == u)).length = 1 := by
  have hany := users_any_eq_false s u h
  have hfil : s.users.filter (fun r => r.username == u) = [] := by
    rw [List.filter_eq_nil_iff]
    intro r hr
    simp only [beq_iff_eq]
    exact h r hr
  refine ⟨by simp [register_user, hany], ?_, ?_⟩ <;>
    simp [register_user, hany, List.any_append, List.filter_append, hfil]

/-- Witness for C5: registering "alice" twice in the empty database. -/
theorem register_user_duplicate_witness :
    (register_user ⟨[], [], 0⟩ "alice" "pw").2 = true ∧
    (register_user (register_user ⟨[], [], 0⟩ "alice" "pw").1 "alice" "pw").2 = false ∧
    ((register_user (register_user ⟨[], [], 0⟩ "alice" "pw").1 "alice" "pw").1.users.filter
        (fun r => r.username == "alice")).length = 1 :=
  register_user_duplicate ⟨[], [], 0⟩ "alice" "pw" (by simp)

/-- C6: `login_user` returns none whenever no stored row matches both the
username and the password digest, so an existing username with a wrong
password is indistinguishable from a nonexistent username: under the
no-match hypothesis both calls return the same `none`. -/
theorem login_user_no_match (s : DBState) (u1 p1 u2 p2 : String)
    (h1 : ∀ r ∈ s.users, ¬(r.username = u1 ∧ r.password = hash_password p1))
    (h2 : ∀ r ∈ s.users, ¬(r.username = u2 ∧ r.password = hash_password p2)) :
    login_user s u1 p1 = none ∧ login_user s u1 p1 = login_user s u2 p2 := by
  have key : ∀ u p, (∀ r ∈ s.users, ¬(r.username = u ∧ r.password = hash_password p)) →
      login_user s u p = none := by
    intro u p hup
    rw [login_user, List.find?_eq_none]
    intro r hr
    simp only [Bool.and_eq_true, beq_iff_eq, not_and]
    intro hu hp
    exact hup r hr ⟨hu, hp⟩
  exact ⟨key u1 p1 h1, (key u1 p1 h1).trans (key u2 p2 h2).symm⟩

/-- Witness for C6: one stored user "alice"; a wrong password for "alice"
and the unknown username "bob" both yield the same `none`. -/
theorem login_user_no_match_witness :
    login_user ⟨[⟨"alice", hash_password "pw"⟩], [], 0⟩ "alice" "wrong" = none ∧
    login_user ⟨[⟨"alice", hash_password "pw"⟩], [], 0⟩ "alice" "wrong"
      = login_user ⟨[⟨"alice", hash_password "pw"⟩], [], 0⟩ "bob" "pw" :=
  login_user_no_match ⟨[⟨"alice", hash_password "pw"⟩], [], 0⟩ "alice" "wrong" "bob" "pw"
    (by simp [hash_password]) (by simp [hash_password])

theorem mem_tryAddColumn_self (cols : List String) (c : String) :
    c ∈ tryAddColumn cols c := by
  by_cases h : c ∈ cols <;> simp [tryAddColumn, alterAddColumn, h]

theorem mem_tryAddColumn_of_mem (cols : List String) (c d : String) (h : c ∈ cols) :
    c ∈ tryAddColumn cols d := by
  by_cases hd : d ∈ cols <;> simp [tryAddColumn, alterAddColumn, hd, h]

theorem tryAddColumn_eq_of_mem (cols : List String) (c : String) (h : c ∈ cols) :
    tryAddColumn cols c = cols := by
  simp [tryAddColumn, alterAddColumn, h]

/-- C7: `create_tables` is idempotent: a second invocation raises nothing
(every schema-already-exists failure is swallowed in the model, which is
a total function) and leaves the schema exactly as after the first. -/
theorem create_tables_idempotent (s : Schema) :
    create_tables (create_tables s) = create_tables s := by
  have hg : "gender" ∈ tryAddColumn (tryAddColumn (s.health_data.getD healthColumns) "gender") "goal" :=
    mem_tryAddColumn_of_mem _ _ _ (mem_tryAddColumn_self _ _)
  have hgo : "goal" ∈ tryAddColumn (tryAddColumn (s.health_data.getD healthColumns) "gender") "goal" :=
    mem_tryAddColumn_self _ _
  simp only [create_tables, Option.getD_some]
  rw [tryAddColumn_eq_of_mem _ _ hg, tryAddColumn_eq_of_mem _ _ hgo]

/-- C8: `get_user_data_df` returns exactly the stored rows whose username
matches, as an order-preserving subsequence of the stored (= insertion)
order, and when the stored timestamps are non-decreasing (as they are,
being assigned from the clock at insertion) so are the timestamps of the
returned rows. -/
theorem get_user_data_df_spec (s : DBState) (u : String)
    (hmono : s.health_data.Pairwise (fun a b => a.timestamp ≤ b.timestamp)) :
    (∀ r ∈ userRecords s u, r.username = u) ∧
    (∀ r ∈ s.health_data, r.username = u → r ∈ userRecords s u) ∧
    (userRecords s u).Sublist s.health_data ∧
    get_user_data_df s u = (userRecords s u).map projectRow ∧
    (get_user_data_df s u).Pairwise (fun a b => a.timestamp ≤ b.timestamp) := by
  refine ⟨?_, ?_, List.filter_sublist _, rfl, ?_⟩
  · intro r hr
    have := List.of_mem_filter hr
    simpa using this
  · intro r hr hu
    exact List.mem_filter.mpr ⟨hr, by simpa using hu⟩
  · have hrec : (userRecords s u).Pairwise (fun a b => a.timestamp ≤ b.timestamp) :=
      hmono.sublist (List.filter_sublist _)
    exact List.pairwise_map.mpr hrec

/-- Witness for C8: a database holding records for "alice" and "bob" with
non-decreasing timestamps. -/
theorem get_user_data_df_spec_witness :
    (∀ r ∈ userRecords sampleState "alice", r.username = "alice") ∧
    (∀ r ∈ sampleState.health_data, r.username = "alice" → r ∈ userRecords sampleState "alice") ∧
    (userRecords sampleState "alice").Sublist sampleState.health_data ∧
    get_user_data_df sampleState "alice"
      = (userRecords sampleState "alice").map projectRow ∧
    (get_user_data_df sampleState "alice").Pairwise (fun a b => a.timestamp ≤ b.timestamp) :=
  get_user_data_df_spec sampleState "alice" (by simp [sampleState, List.pairwise_cons])

/-- C9: health records are immutable once created: `insert_health_data`
appends exactly one row (the previous rows form a prefix of the new
table), leaves the `users` table unchanged, and `register_user` (the only
other state-changing operation; `login_user` and `get_user_data_df` are
read-only, taking the state purely as input) leaves `health_data`
unchanged. -/
theorem insert_health_data_frame (s : DBState) (now : ℕ)
    (u nm g go : String) (age : ℤ) (w ht : ℚ) (bp : String) (bmi : ℚ) (steps : ℤ)
    (u2 p2 : String) :
    (insert_health_data s now u nm g go age w ht bp bmi steps).users = s.users ∧
    (insert_health_data s now u nm g go age w ht bp bmi steps).health_data
      = s.health_data ++ [⟨s.nextId, u, nm, g, go, age, w, ht, bp, bmi, steps, now⟩] ∧
    s.health_data <+: (insert_health_data s now u nm g go age w ht bp bmi steps).health_data ∧
    (register_user s u2 p2).1.health_data = s.health_data := by
  refine ⟨rfl, rfl, ⟨_, rfl⟩, ?_⟩
  rw [register_user]
  split <;> rfl

theorem find?_append_of_none {α : Type} (p : α → Bool) (l1 l2 : List α)
    (h : l1.find? p = none) : (l1 ++ l2).find? p = l2.find? p := by
  induction l1 with
  | nil => simp
  | cons a t ih =>
    rw [List.find?_cons] at h
    cases hpa : p a with
    | true => rw [hpa] at h; exact absurd h (by simp)
    | false =>
      rw [hpa] at h
      rw [List.cons_append, List.find?_cons, hpa]
      exact ih h

/-- C10: register/login round trip: if `register_user` succeeds, then
`login_user` with the same username and password on the resulting state
returns a row whose username field is that username (the same digest is
applied on both paths). -/
theorem register_login_roundtrip (s : DBState) (u p : String)
    (h : (register_user s u p).2 = true) :
    ∃ row, login_user (register_user s u p).1 u p = some row ∧ row.username = u := by
  by_cases hany : s.users.any (fun r => r.username == u) = true
  · rw [register_user] at h
    rw [if_pos hany] at h
    exact absurd h (by simp)
  · refine ⟨⟨u, hash_password p⟩, ?_, rfl⟩
    have hnone : s.users.find?
        (fun r => r.username == u && r.password == hash_password p) = none := by
      rw [List.find?_eq_none]
      intro r hr
      have hne : r.username ≠ u := by
        have hf : s.users.any (fun x => x.username == u) = false := by
          simpa using hany
        rw [List.any_eq_false] at hf
        simpa using hf r hr
      simp [hne]
    rw [register_user, if_neg hany]
    rw [login_user]
    simp only
    rw [find?_append_of_none _ _ _ hnone]
    simp [List.find?_cons]

/-- Witness for C10: registering "alice" in the empty database and
logging in with the same credentials. -/
theorem register_login_roundtrip_witness :
    ∃ row, login_user (register_user ⟨[], [], 0⟩ "alice" "pw").1 "alice" "pw" = some row ∧
      row.username = "alice" :=
  register_login_roundtrip ⟨[], [], 0⟩ "alice" "pw" (by simp [register_user])

end HealthApp
